import Mathlib

/-!
Shallow embedding of the POSM cost-calculation engine
(`cost_calc_improved.py`) and verification of the specification's claims
about it.

Conventions of the embedding:
* quantities are natural numbers (the spec declares display quantities to
  be non-negative integers), priorities are integers;
* the float expression `int(quantity * 0.7)` is embedded bit-exactly:
  `int_mul_07` computes the binary64 value of the literal `0.7`, the
  correctly rounded (round-to-nearest, ties-to-even) product, and the
  truncation, because the float product falls below the exact rational
  product at small reachable inputs (`int(330 * 0.7) = 230`, not 231);
  the remaining float expressions (the `1.3` buffer and the two
  `math.ceil(... / 5)` / `math.ceil(... / 10)` round-ups) are embedded
  as exact rational arithmetic with `Int.ceil`, with which they agree
  for all quantities below roughly `2 ^ 40` — far beyond the magnitudes
  the program handles;
* pandas dataframes are lists of records; a `merge(..., how='left')`
  against a dimension table whose key is unique (as the data model
  requires) is embedded as a first-match lookup returning `Option`;
  a `groupby` drops rows whose group key is missing, exactly as pandas
  drops NaN group keys.
-/

namespace PosmCalc

/-- The `BUFFER_MULTIPLIER = 1.3` (source line 9). -/
def BUFFER_MULTIPLIER : ℚ := 1.3

/-- The `MINIMUM_QUANTITY = 210` (source line 10). -/
def MINIMUM_QUANTITY : ℕ := 210

/-- One entry of `PRICE_RANGES` (source lines 11-20): lower bound, upper
bound (`none` stands for `float('inf')`) and the range label. -/
structure PriceRange where
  lo : ℚ
  hi : Option ℚ
  name : String
deriving DecidableEq

/-- The `PRICE_RANGES` table (source lines 11-20). -/
def PRICE_RANGES : List PriceRange :=
  [⟨0, some 200, "<200"⟩,
   ⟨201, some 500, "201-500"⟩,
   ⟨501, some 1000, "501-1000"⟩,
   ⟨1001, some 2000, "1001 - 2000"⟩,
   ⟨2001, some 3000, "2001 - 3000"⟩,
   ⟨3001, some 4000, "3001 - 4000"⟩,
   ⟨4001, some 5000, "4001 - 5000"⟩,
   ⟨5001, none, ">5000"⟩]

/-- The loop guard `min_val <= quantity <= max_val` of `get_price_range`
(source line 57); an upper bound of `none` (`float('inf')`) is satisfied
by every quantity. -/
def inRangeB (q : ℚ) (r : PriceRange) : Bool :=
  decide (r.lo ≤ q) &&
    (match r.hi with
     | none => true
     | some h => decide (q ≤ h))

/-- The `get_price_range` (source lines 54-59): first matching range's label,
falling back to the label of the last entry (`PRICE_RANGES[-1][2]`) when
no range matches. -/
def get_price_range (q : ℚ) : String :=
  match PRICE_RANGES.find? (inRangeB q) with
  | some r => r.name
  | none =>
    match PRICE_RANGES.getLast? with
    | some r => r.name
    | none => ""

/-- The `apply_quantity_rules` (source lines 36-52).  Priority 1 buffers by
`BUFFER_MULTIPLIER`, rounds up to the next multiple of 10 and enforces
`MINIMUM_QUANTITY`; every other priority value falls into the `else`
branch (commented `# priority == 2` in the source) and is only rounded up
to the next multiple of 5. -/
def apply_quantity_rules (qty : ℕ) (priority : ℤ) : ℕ :=
  if priority = 1 then
    max ((⌈(qty : ℚ) * BUFFER_MULTIPLIER / 10⌉).toNat * 10) MINIMUM_QUANTITY
  else
    (⌈(qty : ℚ) / 5⌉).toNat * 5

/-- The odd significand of the binary64 value of the literal `0.7`:
the double nearest to `0.7` is `3152519739159347 / 2 ^ 52`
(`0.6999999999999999555910790149937383830547332763671875`). -/
def FLOAT07_NUM : ℕ := 3152519739159347

/-- The expression `int(q * 0.7)` of source line 84 for a natural `q`,
computed with binary64 semantics.  `q * FLOAT07_NUM / 2 ^ 52` is the
exact product of `q` and the double `0.7` (the conversion of `q` itself
to a double is exact for `q < 2 ^ 53`, which covers every quantity the
program can represent in its dataframes without loss).  A product below
`2 ^ 53 / 2 ^ 52 = 2` is exactly representable; otherwise the product is
rounded to 53 significant bits with round-to-nearest, ties-to-even, and
the rounded double is truncated to an integer (`int` truncates towards
zero; all values here are non-negative, so truncation is the floor).
The float product can fall below the exact product `7 * q / 10`:
`int_mul_07 330 = 230` while `⌊330 * 7 / 10⌋ = 231`, matching Python's
`int(330 * 0.7) = 230`. -/
def int_mul_07 (q : ℕ) : ℕ :=
  let num := q * FLOAT07_NUM
  if num < 2 ^ 53 then num / 2 ^ 52
  else
    let shift := Nat.log2 num - 52
    let m0 := num / 2 ^ shift
    let rem := num % 2 ^ shift
    let half := 2 ^ (shift - 1)
    let m := if half < rem then m0 + 1
      else if rem < half then m0
      else m0 + m0 % 2
    m * 2 ^ shift / 2 ^ 52

/-- The `calculate_send_quantity` (source lines 76-96), the fallback send
rule: 70% of the adjusted quantity computed as the binary64 product and
truncated to an integer, raised to at least the original quantity,
rounded up to a multiple of 10, and capped at the adjusted quantity — in
exactly that order. -/
def calculate_send_quantity (quantity original_quantity : ℕ) : ℕ :=
  let send1 := int_mul_07 quantity
  let send2 := max send1 original_quantity
  let send3 := if send2 % 10 ≠ 0 then (⌈(send2 : ℚ) / 10⌉).toNat * 10 else send2
  min send3 quantity

/-! ### Input tables (§6 wire contract) -/

/-- A row of `fact_display`: `shop, model, quantity`. -/
structure FactRow where
  shop : String
  model : String
  quantity : ℕ
deriving DecidableEq

/-- A row of `dim_storelist` after the `Store name → shop` rename:
`shop, Province` (the address column plays no role in the computation). -/
structure StoreRow where
  shop : String
  province : String
deriving DecidableEq

/-- A row of `dim_model`: `model, priority` (the optional subcategory
column plays no role in `calculate_posm_report`). -/
structure ModelRow where
  model : String
  priority : ℤ
deriving DecidableEq

/-- A row of the `posm` sheet of `dim_posm.xlsx`: `model, posm`. -/
structure PosmMapRow where
  model : String
  posm : String
deriving DecidableEq

/-- A row of the `price` sheet of `dim_posm.xlsx`:
`posm, name, range, price`. -/
structure PriceRow where
  posm : String
  name : String
  range : String
  price : ℚ
deriving DecidableEq

/-! ### Generic grouped aggregation

`df.groupby(keys)[col].sum()` is embedded as: the distinct group keys
(pandas drops rows whose group key is NaN; rows that would carry a NaN
key are removed before grouping by the `filterMap`s below), each paired
with the sum of the column over the rows of that group. -/

/-- Sum of `val` over the rows of `rows` whose key is `k`. -/
def sumWhere [DecidableEq κ] (key : α → κ) (val : α → ℕ) (rows : List α)
    (k : κ) : ℕ :=
  ((rows.filter (fun r => key r = k)).map val).sum

/-- The `groupby(key)[val].sum()`: one output pair per distinct key. -/
def groupBySum [DecidableEq κ] (key : α → κ) (val : α → ℕ) (rows : List α) :
    List (κ × ℕ) :=
  ((rows.map key).dedup).map (fun k => (k, sumWhere key val rows k))

/-! ### Merges (left joins against unique-keyed dimension tables) -/

/-- The `merge(..., dim_model[['model','priority']], on='model', how='left')`:
first matching row's priority, `none` when the model is absent (pandas
NaN). -/
def lookupPriority (dim_model : List ModelRow) (m : String) : Option ℤ :=
  (dim_model.find? (fun r => r.model = m)).map (fun r => r.priority)

/-- The `merge(..., dim_posm, on='model', how='left')`: first matching row's
POSM type, `none` when the model is absent. -/
def lookupPosm (dim_posm : List PosmMapRow) (m : String) : Option String :=
  (dim_posm.find? (fun r => r.model = m)).map (fun r => r.posm)

/-- The `merge(fact_display, dim_storelist, on='shop', how='left')` restricted
to the province column: first matching store's province, `none` when the
shop is absent. -/
def lookupProvince (dim_storelist : List StoreRow) (s : String) :
    Option String :=
  (dim_storelist.find? (fun r => r.shop = s)).map (fun r => r.province)

/-- The `price_posm.drop_duplicates(subset=['posm'])` merged on `posm`
(source lines 166-173): the first price row's `name` for a POSM type. -/
def lookupName (price_posm : List PriceRow) (t : String) : Option String :=
  (price_posm.find? (fun r => r.posm = t)).map (fun r => r.name)

/-! ### POSM-level demand (source lines 116-173) -/

/-- The `model_quantity = fact_display.groupby('model')['quantity'].sum()`
(source line 117). -/
def model_quantity (fact_display : List FactRow) : List (String × ℕ) :=
  groupBySum (fun r => r.model) (fun r => r.quantity) fact_display

/-- The `model_posm` (source lines 120-133) restricted to the rows that carry
both a priority and a POSM type; rows with a NaN priority or POSM type
are dropped by the subsequent `groupby(['posm', 'priority'])`. Each
element is `((posm, priority), quantity)`. -/
def posm_priority_rows (fact_display : List FactRow)
    (dim_model : List ModelRow) (dim_posm : List PosmMapRow) :
    List ((String × ℤ) × ℕ) :=
  (model_quantity fact_display).filterMap (fun mq =>
    match lookupPosm dim_posm mq.1, lookupPriority dim_model mq.1 with
    | some t, some p => some ((t, p), mq.2)
    | _, _ => none)

/-- The `posm_by_priority = model_posm.groupby(['posm','priority'])['quantity'].sum()`
(source line 136). -/
def posm_by_priority (fact_display : List FactRow)
    (dim_model : List ModelRow) (dim_posm : List PosmMapRow) :
    List ((String × ℤ) × ℕ) :=
  groupBySum Prod.fst Prod.snd (posm_priority_rows fact_display dim_model dim_posm)

/-- A row of `posm_quantity` (source lines 139-173): POSM type, name
merged from the price sheet, total raw quantity, and the adjusted
quantity obtained by applying `apply_quantity_rules` per priority group
and summing the results. -/
structure PosmQuantityRow where
  posm : String
  name : Option String
  original_quantity : ℕ
  quantity : ℕ
deriving DecidableEq

/-- The per-POSM loop of source lines 142-160 followed by the name merge
of lines 166-173. -/
def posm_quantity (fact_display : List FactRow) (dim_model : List ModelRow)
    (dim_posm : List PosmMapRow) (price_posm : List PriceRow) :
    List PosmQuantityRow :=
  (((posm_by_priority fact_display dim_model dim_posm).map
      (fun g => g.1.1)).dedup).map (fun t =>
    let data := (posm_by_priority fact_display dim_model dim_posm).filter
      (fun g => g.1.1 = t)
    { posm := t
      name := lookupName price_posm t
      original_quantity := (data.map (fun g => g.2)).sum
      quantity := (data.map (fun g => apply_quantity_rules g.2 g.1.2)).sum })

/-! ### Province-level demand (source lines 183-237) -/

/-- The `display_with_store` grouped by `['Province','model']` (source lines
185-193); rows whose shop has no province are dropped by the groupby.
Each element is `((province, model), quantity)`. -/
def province_model_rows (fact_display : List FactRow)
    (dim_storelist : List StoreRow) : List ((String × String) × ℕ) :=
  fact_display.filterMap (fun f =>
    (lookupProvince dim_storelist f.shop).map (fun pr => ((pr, f.model), f.quantity)))

/-- The `province_model_qty` (source line 193). -/
def province_model_qty (fact_display : List FactRow)
    (dim_storelist : List StoreRow) : List ((String × String) × ℕ) :=
  groupBySum Prod.fst Prod.snd (province_model_rows fact_display dim_storelist)

/-- The `province_posm` (source lines 196-209) restricted to rows carrying a
priority and a POSM type. Each element is
`((province, posm, priority), quantity)`. -/
def province_posm_rows (fact_display : List FactRow)
    (dim_storelist : List StoreRow) (dim_model : List ModelRow)
    (dim_posm : List PosmMapRow) : List ((String × String × ℤ) × ℕ) :=
  (province_model_qty fact_display dim_storelist).filterMap (fun pm =>
    match lookupPosm dim_posm pm.1.2, lookupPriority dim_model pm.1.2 with
    | some t, some p => some ((pm.1.1, t, p), pm.2)
    | _, _ => none)

/-- A row of `province_posm_qty_priority` (source lines 212-231). -/
structure ProvincePosmPriorityRow where
  province : String
  posm : String
  priority : ℤ
  original_quantity : ℕ
  adjusted_quantity : ℕ
deriving DecidableEq

/-- The `groupby(['Province','posm','priority'])` loop of source lines
215-228: per group, the raw sum and the rule-adjusted quantity. -/
def province_posm_qty_priority (fact_display : List FactRow)
    (dim_storelist : List StoreRow) (dim_model : List ModelRow)
    (dim_posm : List PosmMapRow) : List ProvincePosmPriorityRow :=
  (groupBySum Prod.fst Prod.snd
      (province_posm_rows fact_display dim_storelist dim_model dim_posm)).map
    (fun g =>
      { province := g.1.1
        posm := g.1.2.1
        priority := g.1.2.2
        original_quantity := g.2
        adjusted_quantity := apply_quantity_rules g.2 g.1.2.2 })

/-- A row of `province_posm_qty` (source lines 234-237): priorities
aggregated away. -/
structure ProvincePosmRow where
  province : String
  posm : String
  original_quantity : ℕ
  adjusted_quantity : ℕ
deriving DecidableEq

/-- The `province_posm_qty = province_posm_qty_priority.groupby(['Province','posm']).agg(sum)`
(source lines 234-237). -/
def province_posm_qty (fact_display : List FactRow)
    (dim_storelist : List StoreRow) (dim_model : List ModelRow)
    (dim_posm : List PosmMapRow) : List ProvincePosmRow :=
  (((province_posm_qty_priority fact_display dim_storelist dim_model dim_posm).map
      (fun r => (r.province, r.posm))).dedup).map (fun k =>
    { province := k.1
      posm := k.2
      original_quantity := sumWhere (fun r => (r.province, r.posm))
        (fun r => r.original_quantity)
        (province_posm_qty_priority fact_display dim_storelist dim_model dim_posm) k
      adjusted_quantity := sumWhere (fun r => (r.province, r.posm))
        (fun r => r.adjusted_quantity)
        (province_posm_qty_priority fact_display dim_storelist dim_model dim_posm) k })

/-! ### Province allocation and the final report (source lines 240-337) -/

/-- A row of `province_summary_data` (source lines 280-287). -/
structure ProvinceSummaryRow where
  province : String
  posm : String
  posm_name : Option String
  needed_quantity : ℕ
  percentage_of_total : ℚ
  allocated_quantity : ℕ
deriving DecidableEq

/-- The body of the allocation loop (source lines 257-287) for one POSM
row: one summary row per province that needs the POSM type, with its raw
need, its percentage of the total raw need (0 when the total is 0,
multiplied by 100 at line 285) and its own rule-adjusted quantity as the
allocation (line 275). -/
def summary_rows_for (fact_display : List FactRow)
    (dim_storelist : List StoreRow) (dim_model : List ModelRow)
    (dim_posm : List PosmMapRow) (row : PosmQuantityRow) :
    List ProvinceSummaryRow :=
  let provinces := (province_posm_qty fact_display dim_storelist dim_model
    dim_posm).filter (fun pr => pr.posm = row.posm)
  let total : ℕ := (provinces.map (fun pr => pr.original_quantity)).sum
  provinces.map (fun pr =>
    { province := pr.province
      posm := row.posm
      posm_name := row.name
      needed_quantity := pr.original_quantity
      percentage_of_total :=
        (if 0 < total then (pr.original_quantity : ℚ) / (total : ℚ) else 0) * 100
      allocated_quantity := pr.adjusted_quantity })

/-- The allocation loop of source lines 240-287: the per-POSM blocks of
summary rows, concatenated in POSM order, guarded by the membership test
of line 255. -/
def province_summary_data (fact_display : List FactRow)
    (dim_storelist : List StoreRow) (dim_model : List ModelRow)
    (dim_posm : List PosmMapRow) (price_posm : List PriceRow) :
    List ProvinceSummaryRow :=
  (posm_quantity fact_display dim_model dim_posm price_posm).flatMap (fun row =>
    if (province_posm_qty fact_display dim_storelist dim_model dim_posm).any
        (fun pr => pr.posm = row.posm) then
      summary_rows_for fact_display dim_storelist dim_model dim_posm row
    else [])

/-- The dictionary `posm_send_quantities` (source lines 243-278) as a
function: the sum of the per-province allocations for a POSM type (0 for
a POSM type no province needs — the value the dictionary keeps from its
initialisation at line 252). -/
def posm_send_quantities (fact_display : List FactRow)
    (dim_storelist : List StoreRow) (dim_model : List ModelRow)
    (dim_posm : List PosmMapRow) (t : String) : ℕ :=
  (((province_posm_qty fact_display dim_storelist dim_model dim_posm).filter
      (fun pr => pr.posm = t)).map (fun pr => pr.adjusted_quantity)).sum

/-- The `calculate_price` (source lines 61-74): look up the price row for the
POSM type and the quantity's range; `(total_cost, unit_price)`, both 0
when no row matches (the source logs a warning in that branch). -/
def calculate_price (posm_type : String) (quantity : ℕ)
    (price_df : List PriceRow) : ℚ × ℚ :=
  let range_col := get_price_range (quantity : ℚ)
  let price_table := price_df.filter (fun r => r.posm = posm_type)
  match price_table.find? (fun r => r.range = range_col) with
  | some row => (row.price * (quantity : ℚ), row.price)
  | none => (0, 0)

/-- A row of the final `results` dataframe (source lines 319-330).
`backup` is an integer, as in the source (`adjusted - send`). -/
structure ResultRow where
  posm : String
  name : Option String
  original_quantity : ℕ
  quantity : ℕ
  send : ℕ
  backup : ℤ
  original_unit_price : ℚ
  unit_price : ℚ
  original_total_cost : ℚ
  total_cost : ℚ
deriving DecidableEq

/-- The send-quantity computation of source lines 296-308: the summed
province allocations clamped between the raw and the adjusted quantity
when some province needs the POSM type, the standalone fallback rule
otherwise.  The dictionary always holds a key for every iterated POSM
type, so the guard at line 298 reduces to
`posm_send_quantities[posm] > 0`. -/
def send_for (fact_display : List FactRow) (dim_storelist : List StoreRow)
    (dim_model : List ModelRow) (dim_posm : List PosmMapRow)
    (row : PosmQuantityRow) : ℕ :=
  if 0 < posm_send_quantities fact_display dim_storelist dim_model dim_posm
      row.posm then
    min (max (posm_send_quantities fact_display dim_storelist dim_model
      dim_posm row.posm) row.original_quantity) row.quantity
  else
    calculate_send_quantity row.quantity row.original_quantity

/-- The final loop of source lines 290-330. -/
def results (fact_display : List FactRow) (dim_storelist : List StoreRow)
    (dim_model : List ModelRow) (dim_posm : List PosmMapRow)
    (price_posm : List PriceRow) : List ResultRow :=
  (posm_quantity fact_display dim_model dim_posm price_posm).map (fun row =>
    { posm := row.posm
      name := row.name
      original_quantity := row.original_quantity
      quantity := row.quantity
      send := send_for fact_display dim_storelist dim_model dim_posm row
      backup := (row.quantity : ℤ)
        - (send_for fact_display dim_storelist dim_model dim_posm row : ℤ)
      original_unit_price :=
        (calculate_price row.posm row.original_quantity price_posm).2
      unit_price := (calculate_price row.posm row.quantity price_posm).2
      original_total_cost :=
        (calculate_price row.posm row.original_quantity price_posm).1
      total_cost := (calculate_price row.posm row.quantity price_posm).1 })

/-- The `calculate_posm_report` (source lines 98-341): the pair
`(final_df, province_summary_df)` when the run completes, `none` when it
aborts.  The `try/except` is live in two places.  When no `(posm,
priority)` group survives (exactly when `posm_priority_rows` is empty),
the `pd.DataFrame(posm_quantity_list)` of source line 163 is built from
an empty list, so it has no columns, and the `pd.merge(..., on='posm')`
at line 167 raises a `KeyError`.  When no `(Province, posm, priority)`
group survives (exactly when `province_posm_qty_priority` is empty —
e.g. demand only from shops absent from the store list), the
`pd.DataFrame(province_posm_qty_list)` of line 231 has no columns, and
the `groupby(['Province', 'posm'])` at line 234 raises a `KeyError`.
Either exception is caught at line 339 and surfaced as `(None, None)`,
embedded as `none`.  Neither guard depends on the price table.  No
other embedded operation can raise: the remaining merges are `how='left'`
against frames whose columns exist by the wire contract. -/
def calculate_posm_report (fact_display : List FactRow)
    (dim_storelist : List StoreRow) (dim_model : List ModelRow)
    (dim_posm : List PosmMapRow) (price_posm : List PriceRow) :
    Option (List ResultRow × List ProvinceSummaryRow) :=
  if posm_priority_rows fact_display dim_model dim_posm = [] then none
  else if province_posm_qty_priority fact_display dim_storelist dim_model
      dim_posm = [] then none
  else some
    (results fact_display dim_storelist dim_model dim_posm price_posm,
     province_summary_data fact_display dim_storelist dim_model dim_posm
       price_posm)

/-! ### Specification-side definitions (for refinement comparisons) -/

/-- The quantity rule exactly as the specification words it (§4.2):
defined for priorities 1 and 2 only; any other priority is an
`InvalidPriorityError`, represented by `none`. -/
def applyQuantityRuleSpec (qty : ℕ) (priority : ℤ) : Option ℕ :=
  if priority = 1 then some (max ((⌈(qty : ℚ) * 1.3 / 10⌉).toNat * 10) 210)
  else if priority = 2 then some ((⌈(qty : ℚ) / 5⌉).toNat * 5)
  else none

/-- The fallback send rule exactly as the specification words it (§4.4):
`clamp(round_up_to_multiple_of_10(70% of adjustedQuantity),
lower=rawQuantity, upper=adjustedQuantity)` — the round-up to a multiple
of 10 happens before both clamps. -/
def sendQuantitySpec (adjusted raw : ℕ) : ℕ :=
  min (max (((⌊(adjusted : ℚ) * 0.7⌋).toNat + 9) / 10 * 10) raw) adjusted

/-! ### Bridges between rational floor/ceiling arithmetic and natural
number division -/

lemma ceil_natCast_div (a b : ℕ) (hb : 0 < b) :
    ⌈(a : ℚ) / (b : ℚ)⌉ = (((a + b - 1) / b : ℕ) : ℤ) := by
  have hb' : (0 : ℚ) < (b : ℚ) := by exact_mod_cast hb
  have h1 : b * ((a + b - 1) / b) + (a + b - 1) % b + 1 = a + b := by
    have := Nat.div_add_mod (a + b - 1) b
    omega
  set d := (a + b - 1) / b with hd
  set m := (a + b - 1) % b with hm
  have h1z : (b : ℤ) * d + m + 1 = a + b := by exact_mod_cast h1
  have h2z : (m : ℤ) < b := by exact_mod_cast Nat.mod_lt (a + b - 1) hb
  have h0z : (0 : ℤ) ≤ m := Int.natCast_nonneg m
  rw [Int.ceil_eq_iff]
  constructor
  · rw [lt_div_iff₀ hb']
    have h3 : ((d : ℤ) - 1) * (b : ℤ) < (a : ℤ) := by nlinarith [h1z, h0z]
    exact_mod_cast h3
  · rw [div_le_iff₀ hb']
    have h3 : (a : ℤ) ≤ (d : ℤ) * (b : ℤ) := by nlinarith [h1z, h2z]
    exact_mod_cast h3

lemma floor_natCast_div (a b : ℕ) (hb : 0 < b) :
    ⌊(a : ℚ) / (b : ℚ)⌋ = ((a / b : ℕ) : ℤ) := by
  have hb' : (0 : ℚ) < (b : ℚ) := by exact_mod_cast hb
  have h1 : b * (a / b) + a % b = a := Nat.div_add_mod a b
  set d := a / b with hd
  set m := a % b with hm
  have h1z : (b : ℤ) * d + m = a := by exact_mod_cast h1
  have h2z : (m : ℤ) < b := by exact_mod_cast Nat.mod_lt a hb
  have h0z : (0 : ℤ) ≤ m := Int.natCast_nonneg m
  rw [Int.floor_eq_iff]
  constructor
  · rw [le_div_iff₀ hb']
    have h3 : (d : ℤ) * (b : ℤ) ≤ (a : ℤ) := by nlinarith [h1z, h0z]
    exact_mod_cast h3
  · rw [div_lt_iff₀ hb']
    have h3 : (a : ℤ) < ((d : ℤ) + 1) * (b : ℤ) := by nlinarith [h1z, h2z]
    exact_mod_cast h3

/-- The priority-1 branch in exact natural-number arithmetic. -/
lemma apply_quantity_rules_one (q : ℕ) :
    apply_quantity_rules q 1 = max ((13 * q + 99) / 100 * 10) 210 := by
  unfold apply_quantity_rules BUFFER_MULTIPLIER MINIMUM_QUANTITY
  rw [if_pos rfl]
  have harg : (q : ℚ) * (1.3 : ℚ) / 10 = ((13 * q : ℕ) : ℚ) / ((100 : ℕ) : ℚ) := by
    push_cast
    norm_num
    ring
  rw [harg, ceil_natCast_div _ _ (by norm_num), Int.toNat_natCast]
  have : (13 * q + 100 - 1) / 100 = (13 * q + 99) / 100 := by omega
  rw [this]

/-- Every non-1 priority takes the `else` branch, in exact natural-number
arithmetic. -/
lemma apply_quantity_rules_else (q : ℕ) (p : ℤ) (hp : p ≠ 1) :
    apply_quantity_rules q p = (q + 4) / 5 * 5 := by
  unfold apply_quantity_rules
  rw [if_neg hp]
  have harg : (q : ℚ) / 5 = ((q : ℕ) : ℚ) / ((5 : ℕ) : ℚ) := by norm_num
  rw [harg, ceil_natCast_div _ _ (by norm_num), Int.toNat_natCast]
  have : (q + 5 - 1) / 5 = (q + 4) / 5 := by omega
  rw [this]

/-- The `calculate_send_quantity` in exact natural-number arithmetic: the
lower clamp by `original_quantity` happens before the round-up to a
multiple of 10, and only the upper clamp follows it. -/
lemma calculate_send_quantity_eq (q o : ℕ) :
    calculate_send_quantity q o
      = min ((max (int_mul_07 q) o + 9) / 10 * 10) q := by
  unfold calculate_send_quantity
  set s := max (int_mul_07 q) o with hs
  by_cases hmod : s % 10 = 0
  · simp only [hmod, ne_eq, not_true_eq_false, if_false]
    have : (s + 9) / 10 * 10 = s := by omega
    rw [this]
  · simp only [ne_eq, hmod, not_false_eq_true, if_true]
    have hceil : (⌈(s : ℚ) / 10⌉).toNat = (s + 9) / 10 := by
      have harg : (s : ℚ) / 10 = ((s : ℕ) : ℚ) / ((10 : ℕ) : ℚ) := by norm_num
      rw [harg, ceil_natCast_div _ _ (by norm_num), Int.toNat_natCast]
      have : (s + 10 - 1) / 10 = (s + 9) / 10 := by omega
      rw [this]
    rw [hceil]

/-- The `apply_quantity_rules` as a single unconditional rewrite into natural
number arithmetic (used to evaluate the pipeline on concrete inputs). -/
lemma apply_quantity_rules_eval (q : ℕ) (p : ℤ) :
    apply_quantity_rules q p
      = if p = 1 then max ((13 * q + 99) / 100 * 10) 210 else (q + 4) / 5 * 5 := by
  by_cases hp : p = 1
  · rw [hp, apply_quantity_rules_one, if_pos rfl]
  · rw [apply_quantity_rules_else q p hp, if_neg hp]

/-- The spec-side fallback send rule in natural number arithmetic. -/
lemma sendQuantitySpec_eq (a r : ℕ) :
    sendQuantitySpec a r = min (max ((7 * a / 10 + 9) / 10 * 10) r) a := by
  unfold sendQuantitySpec
  have h7 : (⌊(a : ℚ) * 0.7⌋).toNat = 7 * a / 10 := by
    have harg : (a : ℚ) * 0.7 = ((7 * a : ℕ) : ℚ) / ((10 : ℕ) : ℚ) := by
      push_cast
      norm_num
      ring
    rw [harg, floor_natCast_div _ _ (by norm_num), Int.toNat_natCast]
  rw [h7]

/-- The binary64 model of `int(q * 0.7)` at `q = 60`: the exact product
lies just below 42, the rounding step lands on exactly 42, and the
truncation yields 42 — here the float result agrees with the exact
`⌊7 * 60 / 10⌋`. -/
lemma int_mul_07_60 : int_mul_07 60 = 42 := by
  have hlog : Nat.log2 (60 * FLOAT07_NUM) = 57 := by
    rw [Nat.log2_eq_log_two]
    exact Nat.log_eq_of_pow_le_of_lt_pow (by norm_num [FLOAT07_NUM])
      (by norm_num [FLOAT07_NUM])
  simp only [int_mul_07]
  rw [hlog]
  norm_num [FLOAT07_NUM]

/-- The binary64 model of `int(q * 0.7)` at `q = 330`: the rounded float
product is `230.99999999999997`, and the truncation yields 230 — one
below the exact `⌊7 * 330 / 10⌋ = 231`, matching Python. -/
lemma int_mul_07_330 : int_mul_07 330 = 230 := by
  have hlog : Nat.log2 (330 * FLOAT07_NUM) = 59 := by
    rw [Nat.log2_eq_log_two]
    exact Nat.log_eq_of_pow_le_of_lt_pow (by norm_num [FLOAT07_NUM])
      (by norm_num [FLOAT07_NUM])
  simp only [int_mul_07]
  rw [hlog]
  norm_num [FLOAT07_NUM]

/-! ### Lemmas about the grouped-aggregation machinery -/

lemma sumWhere_nil [DecidableEq κ] (key : α → κ) (val : α → ℕ) (k : κ) :
    sumWhere key val [] k = 0 := rfl

lemma sumWhere_cons [DecidableEq κ] (key : α → κ) (val : α → ℕ) (r : α)
    (rows : List α) (k : κ) :
    sumWhere key val (r :: rows) k
      = (if key r = k then val r else 0) + sumWhere key val rows k := by
  by_cases h : key r = k
  · simp [sumWhere, List.filter_cons, h]
  · simp [sumWhere, List.filter_cons, h]

lemma sum_map_add (f g : α → ℕ) (l : List α) :
    (l.map (fun x => f x + g x)).sum = (l.map f).sum + (l.map g).sum := by
  induction l with
  | nil => rfl
  | cons x xs ih => simp [ih]; omega

/-- Summing an indicator over a duplicate-free list. -/
lemma sum_map_ite_eq [DecidableEq κ] (c : κ) (v : ℕ) :
    ∀ (l : List κ), l.Nodup →
      (l.map (fun k => if c = k then v else 0)).sum = if c ∈ l then v else 0 := by
  intro l
  induction l with
  | nil => simp
  | cons x xs ih =>
    intro hnd
    rw [List.nodup_cons] at hnd
    rcases hnd with ⟨hx, hxs⟩
    rw [List.map_cons, List.sum_cons, ih hxs]
    by_cases hc : c = x
    · subst hc
      simp [hx]
    · simp [hc, List.mem_cons]

/-- Partitioning a sum over rows into a sum over groups: summing the
per-group sums over any duplicate-free key list covering the rows that
satisfy `P` gives the direct filtered sum. -/
lemma sum_sumWhere_filter [DecidableEq κ] (key : α → κ) (val : α → ℕ)
    (P : κ → Bool) :
    ∀ (rows : List α) (L : List κ), L.Nodup →
      (∀ r ∈ rows, key r ∈ L) →
      ((L.filter P).map (fun k => sumWhere key val rows k)).sum
        = ((rows.filter (fun r => P (key r))).map val).sum := by
  intro rows
  induction rows with
  | nil =>
    intro L _ _
    apply List.sum_eq_zero
    intro x hx
    rcases List.mem_map.mp hx with ⟨k, _, rfl⟩
    rfl
  | cons r rest ih =>
    intro L hnd hcov
    have hcov' : ∀ x ∈ rest, key x ∈ L := fun x hx => hcov x (List.mem_cons_of_mem _ hx)
    have hr : key r ∈ L := hcov r (List.mem_cons_self _ _)
    have hstep : ((L.filter P).map (fun k => sumWhere key val (r :: rest) k)).sum
        = ((L.filter P).map (fun k => if key r = k then val r else 0)).sum
          + ((L.filter P).map (fun k => sumWhere key val rest k)).sum := by
      rw [← sum_map_add]
      apply congrArg
      apply List.map_congr_left
      intro k _
      rw [sumWhere_cons]
    rw [hstep, ih L hnd hcov', sum_map_ite_eq _ _ _ (hnd.filter P)]
    rw [List.filter_cons]
    by_cases hP : P (key r) = true
    · have : key r ∈ L.filter P := List.mem_filter.mpr ⟨hr, hP⟩
      simp [hP, this]
    · have : key r ∉ L.filter P := fun hmem => hP (List.mem_filter.mp hmem).2
      simp [hP, this]

/-- Extracting the block a single generator contributes to a `flatMap`,
when generators have pairwise distinct keys and each generated element
carries its generator's key. -/
lemma filter_flatMap_eq_of_nodup [DecidableEq κ] (g : α → κ) (h : β → κ)
    (f : α → List β) (hf : ∀ a, ∀ b ∈ f a, h b = g a) :
    ∀ (l : List α), (l.map g).Nodup → ∀ x ∈ l,
      (l.flatMap f).filter (fun b => h b = g x) = f x := by
  intro l
  induction l with
  | nil => simp
  | cons a rest ih =>
    intro hnd x hx
    rw [List.map_cons, List.nodup_cons] at hnd
    rcases hnd with ⟨ha, hrest⟩
    rw [List.flatMap_cons, List.filter_append]
    rcases List.mem_cons.mp hx with rfl | hmem
    · have h1 : (f x).filter (fun b => h b = g x) = f x :=
        List.filter_eq_self.mpr (fun b hb => by simp [hf x b hb])
      have h2 : (rest.flatMap f).filter (fun b => h b = g x) = [] := by
        rw [List.filter_eq_nil_iff]
        intro b hb
        rcases List.mem_flatMap.mp hb with ⟨a', ha', hba'⟩
        have hba : h b = g a' := hf a' b hba'
        simp only [hba, decide_eq_true_eq]
        intro hcontra
        exact ha (hcontra ▸ List.mem_map_of_mem g ha')
      rw [h1, h2, List.append_nil]
    · have hgx : g x ≠ g a := by
        intro hcontra
        exact ha (hcontra ▸ List.mem_map_of_mem g hmem)
      have h1 : (f a).filter (fun b => h b = g x) = [] := by
        rw [List.filter_eq_nil_iff]
        intro b hb
        have : h b = g a := hf a b hb
        simp [this]
        intro hcontra
        exact hgx hcontra.symm
      rw [h1, List.nil_append, ih hrest x hmem]

/-- In a list produced by the pipeline, the POSM names are exactly the
deduplicated keys, hence duplicate-free. -/
lemma posm_quantity_map_posm (fact_display : List FactRow)
    (dim_model : List ModelRow) (dim_posm : List PosmMapRow)
    (price_posm : List PriceRow) :
    (posm_quantity fact_display dim_model dim_posm price_posm).map
        (fun r => r.posm)
      = ((posm_by_priority fact_display dim_model dim_posm).map
          (fun g => g.1.1)).dedup := by
  unfold posm_quantity
  rw [List.map_map]
  exact List.map_id'' (fun x => rfl) _

lemma posm_quantity_posm_nodup (fact_display : List FactRow)
    (dim_model : List ModelRow) (dim_posm : List PosmMapRow)
    (price_posm : List PriceRow) :
    ((posm_quantity fact_display dim_model dim_posm price_posm).map
        (fun r => r.posm)).Nodup := by
  rw [posm_quantity_map_posm]
  exact List.nodup_dedup _

/-! ### Price-range lemmas -/

/-- When a predicate holds exactly once in a list, `find?` returns any
member satisfying it. -/
lemma find_of_countP_one {p : α → Bool} :
    ∀ {l : List α}, l.countP p = 1 → ∀ r ∈ l, p r = true → l.find? p = some r := by
  intro l
  induction l with
  | nil => simp
  | cons x xs ih =>
    intro h1 r hr hpr
    by_cases hx : p x = true
    · rw [List.find?_cons_of_pos _ hx]
      have hxs : xs.countP p = 0 := by
        rw [List.countP_cons_of_pos _ _ hx] at h1
        omega
      have hnone : ∀ a ∈ xs, ¬ p a = true := List.countP_eq_zero.mp hxs
      rcases List.mem_cons.mp hr with rfl | hmem
      · rfl
      · exact absurd hpr (hnone r hmem)
    · rw [List.find?_cons_of_neg _ hx]
      have h1' : xs.countP p = 1 := by
        rw [List.countP_cons_of_neg _ _ hx] at h1
        exact h1
      rcases List.mem_cons.mp hr with rfl | hmem
      · exact absurd hpr hx
      · exact ih h1' r hmem hpr

/-- Every natural quantity lies in exactly one of the eight price
ranges. -/
lemma countP_price_ranges (q : ℕ) :
    PRICE_RANGES.countP (fun r => inRangeB (q : ℚ) r) = 1 := by
  have h0 : (0 : ℚ) ≤ (q : ℚ) := Nat.cast_nonneg q
  have c1 : ((q : ℚ) ≤ 200) ↔ q ≤ 200 := by norm_cast
  have c2 : ((201 : ℚ) ≤ (q : ℚ)) ↔ 201 ≤ q := by norm_cast
  have c3 : ((q : ℚ) ≤ 500) ↔ q ≤ 500 := by norm_cast
  have c4 : ((501 : ℚ) ≤ (q : ℚ)) ↔ 501 ≤ q := by norm_cast
  have c5 : ((q : ℚ) ≤ 1000) ↔ q ≤ 1000 := by norm_cast
  have c6 : ((1001 : ℚ) ≤ (q : ℚ)) ↔ 1001 ≤ q := by norm_cast
  have c7 : ((q : ℚ) ≤ 2000) ↔ q ≤ 2000 := by norm_cast
  have c8 : ((2001 : ℚ) ≤ (q : ℚ)) ↔ 2001 ≤ q := by norm_cast
  have c9 : ((q : ℚ) ≤ 3000) ↔ q ≤ 3000 := by norm_cast
  have c10 : ((3001 : ℚ) ≤ (q : ℚ)) ↔ 3001 ≤ q := by norm_cast
  have c11 : ((q : ℚ) ≤ 4000) ↔ q ≤ 4000 := by norm_cast
  have c12 : ((4001 : ℚ) ≤ (q : ℚ)) ↔ 4001 ≤ q := by norm_cast
  have c13 : ((q : ℚ) ≤ 5000) ↔ q ≤ 5000 := by norm_cast
  have c14 : ((5001 : ℚ) ≤ (q : ℚ)) ↔ 5001 ≤ q := by norm_cast
  simp only [PRICE_RANGES, inRangeB, List.countP_cons, List.countP_nil,
    Bool.and_eq_true, decide_eq_true_eq, h0, c1, c2, c3, c4, c5, c6, c7, c8,
    c9, c10, c11, c12, c13, c14, true_and, and_true, iff_true]
  split_ifs <;> omega

/-- The `get_price_range` returns the label of any range containing the
quantity, for natural quantities. -/
lemma get_price_range_eq_of_mem (q : ℕ) (r : PriceRange)
    (hr : r ∈ PRICE_RANGES) (hq : inRangeB (q : ℚ) r = true) :
    get_price_range (q : ℚ) = r.name := by
  unfold get_price_range
  rw [find_of_countP_one (countP_price_ranges q) r hr hq]

/-- The last price range is the open-ended top band. -/
lemma top_range_mem : (⟨5001, none, ">5000"⟩ : PriceRange) ∈ PRICE_RANGES := by
  simp [PRICE_RANGES]

lemma inRangeB_top (q : ℚ) (h : (5001 : ℚ) ≤ q) :
    inRangeB q ⟨5001, none, ">5000"⟩ = true := by
  simp [inRangeB, h]

/-- The `get_price_range` always returns one of the eight range labels. -/
lemma get_price_range_mem_names (q : ℚ) :
    get_price_range q ∈ PRICE_RANGES.map (fun r => r.name) := by
  unfold get_price_range
  cases hf : PRICE_RANGES.find? (inRangeB q) with
  | some r => exact List.mem_map_of_mem _ (List.mem_of_find?_eq_some hf)
  | none => simp [PRICE_RANGES]

/-! ### Structural lemmas about the report -/

/-- Characterisation of the rows of the final report. -/
lemma mem_results (fact : List FactRow) (sl : List StoreRow)
    (dm : List ModelRow) (dp : List PosmMapRow) (pr : List PriceRow)
    (r : ResultRow) (hr : r ∈ results fact sl dm dp pr) :
    ∃ row ∈ posm_quantity fact dm dp pr,
      r.posm = row.posm ∧ r.name = row.name ∧
      r.original_quantity = row.original_quantity ∧
      r.quantity = row.quantity ∧
      r.send = send_for fact sl dm dp row ∧
      r.backup = (row.quantity : ℤ) - (r.send : ℤ) ∧
      r.unit_price = (calculate_price row.posm row.quantity pr).2 ∧
      r.total_cost = (calculate_price row.posm row.quantity pr).1 := by
  unfold results at hr
  simp only [List.mem_map] at hr
  obtain ⟨row, hrow, heq⟩ := hr
  subst heq
  refine ⟨row, hrow, rfl, rfl, rfl, rfl, ?_, ?_, rfl, rfl⟩
  · generalize send_for fact sl dm dp row = s
    rfl
  · generalize send_for fact sl dm dp row = s
    rfl

/-- A completed report is exactly the pair of the final rows and the
province summary. -/
lemma calculate_posm_report_some (fact : List FactRow) (sl : List StoreRow)
    (dm : List ModelRow) (dp : List PosmMapRow) (pr : List PriceRow)
    (out : List ResultRow × List ProvinceSummaryRow)
    (h : calculate_posm_report fact sl dm dp pr = some out) :
    out = (results fact sl dm dp pr,
      province_summary_data fact sl dm dp pr) := by
  unfold calculate_posm_report at h
  split_ifs at h
  exact (Option.some_inj.mp h).symm

/-- Every POSM row of `posm_quantity` has its raw demand bounded by its
adjusted demand, because each quantity rule only rounds up. -/
lemma posm_quantity_original_le (fact : List FactRow) (dm : List ModelRow)
    (dp : List PosmMapRow) (pr : List PriceRow) (row : PosmQuantityRow)
    (hrow : row ∈ posm_quantity fact dm dp pr) :
    row.original_quantity ≤ row.quantity := by
  unfold posm_quantity at hrow
  rcases List.mem_map.mp hrow with ⟨t, ht, rfl⟩
  dsimp only
  apply List.sum_le_sum
  intro g _
  rw [apply_quantity_rules_eval]
  split_ifs <;> omega

/-- A failed price lookup returns a zero cost and a zero unit price. -/
lemma calculate_price_none (t : String) (q : ℕ) (pr : List PriceRow)
    (h : (pr.filter (fun p => p.posm = t)).find?
        (fun p => p.range = get_price_range (q : ℚ)) = none) :
    calculate_price t q pr = (0, 0) := by
  simp only [calculate_price, h]

lemma flatMap_congr_fun (l : List α) (f g : α → List β)
    (h : ∀ a, f a = g a) : l.flatMap f = l.flatMap g := by
  induction l with
  | nil => rfl
  | cons x xs ih => simp only [List.flatMap_cons, h x, ih]

/-- The province-summary loop, with the guard removed: when no province
needs the POSM type the block is empty anyway, so the `if ... in ...`
test of source line 255 is redundant. -/
lemma province_summary_data_eq (fact : List FactRow) (sl : List StoreRow)
    (dm : List ModelRow) (dp : List PosmMapRow) (pr : List PriceRow) :
    province_summary_data fact sl dm dp pr
      = (posm_quantity fact dm dp pr).flatMap
          (summary_rows_for fact sl dm dp) := by
  unfold province_summary_data
  apply flatMap_congr_fun
  intro row
  by_cases hany : (province_posm_qty fact sl dm dp).any
      (fun p => p.posm = row.posm) = true
  · rw [if_pos hany]
  · rw [if_neg hany]
    have hnil : (province_posm_qty fact sl dm dp).filter
        (fun p => p.posm = row.posm) = [] := by
      rw [List.filter_eq_nil_iff]
      intro p hp
      intro hcontra
      exact hany (List.any_eq_true.mpr ⟨p, hp, hcontra⟩)
    unfold summary_rows_for
    rw [hnil]
    rfl

lemma sum_map_div_mul (l : List α) (f : α → ℕ) (T c : ℚ) :
    (l.map (fun a => ((f a : ℚ) / T) * c)).sum
      = (((l.map f).sum : ℚ) / T) * c := by
  induction l with
  | nil => simp
  | cons x xs ih =>
    rw [List.map_cons, List.sum_cons, List.map_cons, List.sum_cons, ih]
    push_cast
    ring

/-! ### The claims -/

/-- C1 counterexample: the specification demands that a priority outside
`{1,2}` abort with an `InvalidPriorityError`, but the engine silently
returns the priority-2 default: for `qty = 10`, `priority = 3` the code
returns the defaulted quantity 10 while the spec-side rule is undefined
(`none`). -/
theorem C1_counterexample :
    applyQuantityRuleSpec 10 3 = none ∧ apply_quantity_rules 10 3 = 10 := by
  constructor
  · rfl
  · rw [apply_quantity_rules_else 10 3 (by decide)]

/-- C1 amended: for every priority other than 1 (in particular every
priority outside `{1,2}`), `apply_quantity_rules` does not signal an
error; it silently applies the priority-2 rule. -/
theorem C1_theorem (q : ℕ) (p : ℤ) (hp : p ≠ 1) :
    apply_quantity_rules q p = apply_quantity_rules q 2 := by
  rw [apply_quantity_rules_else q p hp,
    apply_quantity_rules_else q 2 (by decide)]

/-- C1 witness: the amended claim evaluated at `qty = 7`, `priority = 3`. -/
theorem C1_witness :
    (3 : ℤ) ≠ 1 ∧ apply_quantity_rules 7 3 = apply_quantity_rules 7 2 :=
  ⟨by decide, C1_theorem 7 3 (by decide)⟩

/-- C2: for every `qty ≥ 0`, `apply_quantity_rules qty 1` equals
`max(ceil(qty * 1.3 / 10) * 10, 210)`, is at least 210 and a multiple of
10; `apply_quantity_rules qty 2` equals `ceil(qty / 5) * 5`, is a
multiple of 5 and at least `qty`. -/
theorem C2_theorem (q : ℕ) :
    ((apply_quantity_rules q 1 : ℕ) : ℤ) = max (⌈(q : ℚ) * 1.3 / 10⌉ * 10) 210 ∧
    210 ≤ apply_quantity_rules q 1 ∧
    10 ∣ apply_quantity_rules q 1 ∧
    ((apply_quantity_rules q 2 : ℕ) : ℤ) = ⌈(q : ℚ) / 5⌉ * 5 ∧
    5 ∣ apply_quantity_rules q 2 ∧
    q ≤ apply_quantity_rules q 2 := by
  have hc1 : ⌈(q : ℚ) * 1.3 / 10⌉ = (((13 * q + 99) / 100 : ℕ) : ℤ) := by
    have harg : (q : ℚ) * 1.3 / 10 = ((13 * q : ℕ) : ℚ) / ((100 : ℕ) : ℚ) := by
      push_cast
      norm_num
      ring
    rw [harg, ceil_natCast_div _ _ (by norm_num)]
    have e : 13 * q + 100 - 1 = 13 * q + 99 := by omega
    rw [e]
  have hc2 : ⌈(q : ℚ) / 5⌉ = (((q + 4) / 5 : ℕ) : ℤ) := by
    have harg : (q : ℚ) / 5 = ((q : ℕ) : ℚ) / ((5 : ℕ) : ℚ) := by norm_num
    rw [harg, ceil_natCast_div _ _ (by norm_num)]
    have e : q + 5 - 1 = q + 4 := by omega
    rw [e]
  refine ⟨?_, ?_, ?_, ?_, ?_, ?_⟩
  · rw [apply_quantity_rules_one, hc1]
    push_cast [Nat.cast_max]
    omega
  · rw [apply_quantity_rules_one]
    omega
  · rw [apply_quantity_rules_one]
    omega
  · rw [apply_quantity_rules_else q 2 (by decide), hc2]
    push_cast
    omega
  · rw [apply_quantity_rules_else q 2 (by decide)]
    omega
  · rw [apply_quantity_rules_else q 2 (by decide)]
    omega

/-! Evaluation of the pipeline on the concrete input
`fact = [("S1","M1",56)]`, empty store list, `dim_model = [("M1",2)]`,
`dim_posm = [("M1","P1")]`, empty price table. -/

lemma evalA_posm_quantity :
    posm_quantity [⟨"S1", "M1", 56⟩] [⟨"M1", 2⟩] [⟨"M1", "P1"⟩] []
      = [⟨"P1", none, 56, 60⟩] := by
  unfold posm_quantity
  simp only [apply_quantity_rules_eval]
  decide

/-! Evaluation of the pipeline on the concrete input
`fact = [("S2","M1",56), ("S1","M2",10)]`,
`dim_storelist = [("S1","R1")]` (shop `S2` is absent from the store
list), `dim_model = [("M1",2), ("M2",1)]`,
`dim_posm = [("M1","P1"), ("M2","P2")]`, empty price table.  POSM type
`P2` has province-level demand, so the run completes; POSM type `P1` is
demanded only by the province-less shop `S2`, so its send quantity comes
from the standalone fallback rule. -/

lemma evalD_posm_quantity :
    posm_quantity [⟨"S2", "M1", 56⟩, ⟨"S1", "M2", 10⟩]
        [⟨"M1", 2⟩, ⟨"M2", 1⟩] [⟨"M1", "P1"⟩, ⟨"M2", "P2"⟩] []
      = [⟨"P1", none, 56, 60⟩, ⟨"P2", none, 10, 210⟩] := by
  unfold posm_quantity
  simp only [apply_quantity_rules_eval]
  decide

lemma evalD_province_qty_priority :
    province_posm_qty_priority [⟨"S2", "M1", 56⟩, ⟨"S1", "M2", 10⟩]
        [⟨"S1", "R1"⟩] [⟨"M1", 2⟩, ⟨"M2", 1⟩] [⟨"M1", "P1"⟩, ⟨"M2", "P2"⟩]
      = [⟨"R1", "P2", 1, 10, 210⟩] := by
  unfold province_posm_qty_priority
  simp only [apply_quantity_rules_eval]
  decide

lemma evalD_province_posm_qty :
    province_posm_qty [⟨"S2", "M1", 56⟩, ⟨"S1", "M2", 10⟩]
        [⟨"S1", "R1"⟩] [⟨"M1", 2⟩, ⟨"M2", 1⟩] [⟨"M1", "P1"⟩, ⟨"M2", "P2"⟩]
      = [⟨"R1", "P2", 10, 210⟩] := by
  unfold province_posm_qty
  rw [evalD_province_qty_priority]
  decide

lemma evalD_send_P1 :
    posm_send_quantities [⟨"S2", "M1", 56⟩, ⟨"S1", "M2", 10⟩]
      [⟨"S1", "R1"⟩] [⟨"M1", 2⟩, ⟨"M2", 1⟩] [⟨"M1", "P1"⟩, ⟨"M2", "P2"⟩]
      "P1" = 0 := by
  unfold posm_send_quantities
  rw [evalD_province_posm_qty]
  decide

lemma evalD_send_P2 :
    posm_send_quantities [⟨"S2", "M1", 56⟩, ⟨"S1", "M2", 10⟩]
      [⟨"S1", "R1"⟩] [⟨"M1", 2⟩, ⟨"M2", 1⟩] [⟨"M1", "P1"⟩, ⟨"M2", "P2"⟩]
      "P2" = 210 := by
  unfold posm_send_quantities
  rw [evalD_province_posm_qty]
  decide

lemma evalD_results :
    results [⟨"S2", "M1", 56⟩, ⟨"S1", "M2", 10⟩] [⟨"S1", "R1"⟩]
        [⟨"M1", 2⟩, ⟨"M2", 1⟩] [⟨"M1", "P1"⟩, ⟨"M2", "P2"⟩] []
      = [⟨"P1", none, 56, 60, 60, 0, 0, 0, 0, 0⟩,
         ⟨"P2", none, 10, 210, 210, 0, 0, 0, 0, 0⟩] := by
  unfold results
  rw [evalD_posm_quantity]
  simp only [List.map_cons, List.map_nil, send_for, calculate_send_quantity_eq]
  norm_num [evalD_send_P1, evalD_send_P2, int_mul_07_60, calculate_price]

lemma evalD_summary :
    province_summary_data [⟨"S2", "M1", 56⟩, ⟨"S1", "M2", 10⟩] [⟨"S1", "R1"⟩]
        [⟨"M1", 2⟩, ⟨"M2", 1⟩] [⟨"M1", "P1"⟩, ⟨"M2", "P2"⟩] []
      = [⟨"R1", "P2", none, 10, 100, 210⟩] := by
  rw [province_summary_data_eq, evalD_posm_quantity]
  simp only [List.flatMap_cons, List.flatMap_nil, summary_rows_for,
    evalD_province_posm_qty]
  norm_num [List.filter_cons]
  decide

lemma evalD_report :
    calculate_posm_report [⟨"S2", "M1", 56⟩, ⟨"S1", "M2", 10⟩] [⟨"S1", "R1"⟩]
        [⟨"M1", 2⟩, ⟨"M2", 1⟩] [⟨"M1", "P1"⟩, ⟨"M2", "P2"⟩] []
      = some ([⟨"P1", none, 56, 60, 60, 0, 0, 0, 0, 0⟩,
               ⟨"P2", none, 10, 210, 210, 0, 0, 0, 0, 0⟩],
              [⟨"R1", "P2", none, 10, 100, 210⟩]) := by
  unfold calculate_posm_report
  rw [evalD_province_qty_priority, if_neg (by decide), if_neg (by decide),
    evalD_results, evalD_summary]

/-- C3 counterexample: in a completed run (`P2` has province-level
demand, so the report is `some`), POSM type `P1` has region allocation 0
and its row has adjusted quantity 60, raw quantity 56 and send quantity
60 — the code raises `send` to the raw quantity *before* rounding up to
a multiple of 10 — while the spec formula
`clamp(round_up_to_10(70% of adjusted), raw, adjusted)` yields 56.
Moreover the spec's exact `floor(0.7 * adjusted)` mis-states the
program's float truncation at reachable magnitudes: `int(330 * 0.7)` is
230 in binary64, not `⌊0.7 * 330⌋ = 231`. -/
theorem C3_counterexample :
    calculate_posm_report [⟨"S2", "M1", 56⟩, ⟨"S1", "M2", 10⟩] [⟨"S1", "R1"⟩]
        [⟨"M1", 2⟩, ⟨"M2", 1⟩] [⟨"M1", "P1"⟩, ⟨"M2", "P2"⟩] []
      = some ([⟨"P1", none, 56, 60, 60, 0, 0, 0, 0, 0⟩,
               ⟨"P2", none, 10, 210, 210, 0, 0, 0, 0, 0⟩],
              [⟨"R1", "P2", none, 10, 100, 210⟩]) ∧
    posm_send_quantities [⟨"S2", "M1", 56⟩, ⟨"S1", "M2", 10⟩] [⟨"S1", "R1"⟩]
        [⟨"M1", 2⟩, ⟨"M2", 1⟩] [⟨"M1", "P1"⟩, ⟨"M2", "P2"⟩] "P1" = 0 ∧
    sendQuantitySpec 60 56 = 56 ∧
    int_mul_07 330 = 230 := by
  refine ⟨evalD_report, evalD_send_P1, ?_, int_mul_07_330⟩
  rw [sendQuantitySpec_eq]
  decide

/-- C3 amended: for every row of a completed report whose POSM type has
no region allocation, the send quantity is
`min(round_up_to_10(max(int_mul_07(adjusted), raw)), adjusted)`, where
`int_mul_07` is the binary64 truncation `int(adjusted * 0.7)` — the
raw-quantity lower bound is applied before the round-up to a multiple of
10, not after it, and the 70% step is the float truncation rather than
the exact `floor(0.7 * adjusted)`. -/
theorem C3_theorem (fact : List FactRow) (sl : List StoreRow)
    (dm : List ModelRow) (dp : List PosmMapRow) (pr : List PriceRow)
    (out : List ResultRow × List ProvinceSummaryRow)
    (hout : calculate_posm_report fact sl dm dp pr = some out)
    (r : ResultRow) (hr : r ∈ out.1)
    (hnoregion : posm_send_quantities fact sl dm dp r.posm = 0) :
    r.send
      = min ((max (int_mul_07 r.quantity) r.original_quantity + 9) / 10 * 10)
        r.quantity := by
  rw [calculate_posm_report_some fact sl dm dp pr out hout] at hr
  replace hr : r ∈ results fact sl dm dp pr := hr
  obtain ⟨row, hrow, hposm, _, horig, hqty, hsend, _, _, _⟩ :=
    mem_results fact sl dm dp pr r hr
  rw [hposm] at hnoregion
  rw [hsend]
  unfold send_for
  rw [if_neg (by omega), calculate_send_quantity_eq, horig, hqty]

/-- C3 witness: the amended claim at the counterexample input. -/
theorem C3_witness :
    calculate_posm_report [⟨"S2", "M1", 56⟩, ⟨"S1", "M2", 10⟩] [⟨"S1", "R1"⟩]
        [⟨"M1", 2⟩, ⟨"M2", 1⟩] [⟨"M1", "P1"⟩, ⟨"M2", "P2"⟩] []
      = some ([⟨"P1", none, 56, 60, 60, 0, 0, 0, 0, 0⟩,
               ⟨"P2", none, 10, 210, 210, 0, 0, 0, 0, 0⟩],
              [⟨"R1", "P2", none, 10, 100, 210⟩]) ∧
    posm_send_quantities [⟨"S2", "M1", 56⟩, ⟨"S1", "M2", 10⟩] [⟨"S1", "R1"⟩]
        [⟨"M1", 2⟩, ⟨"M2", 1⟩] [⟨"M1", "P1"⟩, ⟨"M2", "P2"⟩] "P1" = 0 ∧
    (⟨"P1", none, 56, 60, 60, 0, 0, 0, 0, 0⟩ : ResultRow).send
      = min ((max (int_mul_07 60) 56 + 9) / 10 * 10) 60 := by
  refine ⟨evalD_report, evalD_send_P1, ?_⟩
  have h := C3_theorem [⟨"S2", "M1", 56⟩, ⟨"S1", "M2", 10⟩] [⟨"S1", "R1"⟩]
    [⟨"M1", 2⟩, ⟨"M2", 1⟩] [⟨"M1", "P1"⟩, ⟨"M2", "P2"⟩] []
    ([⟨"P1", none, 56, 60, 60, 0, 0, 0, 0, 0⟩,
      ⟨"P2", none, 10, 210, 210, 0, 0, 0, 0, 0⟩],
     [⟨"R1", "P2", none, 10, 100, 210⟩]) evalD_report
    ⟨"P1", none, 56, 60, 60, 0, 0, 0, 0, 0⟩ (List.mem_cons_self _ _)
    evalD_send_P1
  rw [show (⟨"P1", none, 56, 60, 60, 0, 0, 0, 0, 0⟩ : ResultRow).quantity = 60
        from rfl,
      show (⟨"P1", none, 56, 60, 60, 0, 0, 0, 0, 0⟩ : ResultRow).original_quantity
          = 56 from rfl] at h
  exact h

/-- C4: every row of a completed report satisfies
`send + backup = adjusted`, `backup ≥ 0` and
`raw ≤ send ≤ adjusted`, whichever branch produced the send quantity. -/
theorem C4_theorem (fact : List FactRow) (sl : List StoreRow)
    (dm : List ModelRow) (dp : List PosmMapRow) (pr : List PriceRow)
    (out : List ResultRow × List ProvinceSummaryRow)
    (hout : calculate_posm_report fact sl dm dp pr = some out)
    (r : ResultRow) (hr : r ∈ out.1) :
    (r.send : ℤ) + r.backup = (r.quantity : ℤ) ∧
    0 ≤ r.backup ∧
    r.original_quantity ≤ r.send ∧
    r.send ≤ r.quantity := by
  rw [calculate_posm_report_some fact sl dm dp pr out hout] at hr
  replace hr : r ∈ results fact sl dm dp pr := hr
  obtain ⟨row, hrow, _, _, horig, hqty, hsend, hbackup, _, _⟩ :=
    mem_results fact sl dm dp pr r hr
  have hle : row.original_quantity ≤ row.quantity :=
    posm_quantity_original_le fact dm dp pr row hrow
  have hsendb : row.original_quantity ≤ r.send ∧ r.send ≤ row.quantity := by
    rw [hsend]
    unfold send_for
    split_ifs with h
    · omega
    · rw [calculate_send_quantity_eq]
      omega
  refine ⟨?_, ?_, ?_, ?_⟩
  · rw [hbackup, hqty]
    ring
  · rw [hbackup]
    omega
  · rw [horig]
    exact hsendb.1
  · rw [hqty]
    exact hsendb.2

/-- C4 witness: the invariants at the fallback row `P1` of the completed
report for `fact = [("S2","M1",56), ("S1","M2",10)]`,
`dim_storelist = [("S1","R1")]`, `dim_model = [("M1",2), ("M2",1)]`,
`dim_posm = [("M1","P1"), ("M2","P2")]`, empty price table. -/
theorem C4_witness :
    calculate_posm_report [⟨"S2", "M1", 56⟩, ⟨"S1", "M2", 10⟩] [⟨"S1", "R1"⟩]
        [⟨"M1", 2⟩, ⟨"M2", 1⟩] [⟨"M1", "P1"⟩, ⟨"M2", "P2"⟩] []
      = some ([⟨"P1", none, 56, 60, 60, 0, 0, 0, 0, 0⟩,
               ⟨"P2", none, 10, 210, 210, 0, 0, 0, 0, 0⟩],
              [⟨"R1", "P2", none, 10, 100, 210⟩]) ∧
    (((⟨"P1", none, 56, 60, 60, 0, 0, 0, 0, 0⟩ : ResultRow).send : ℤ)
          + (⟨"P1", none, 56, 60, 60, 0, 0, 0, 0, 0⟩ : ResultRow).backup
        = ((⟨"P1", none, 56, 60, 60, 0, 0, 0, 0, 0⟩ : ResultRow).quantity : ℤ) ∧
      0 ≤ (⟨"P1", none, 56, 60, 60, 0, 0, 0, 0, 0⟩ : ResultRow).backup ∧
      (⟨"P1", none, 56, 60, 60, 0, 0, 0, 0, 0⟩ : ResultRow).original_quantity
        ≤ (⟨"P1", none, 56, 60, 60, 0, 0, 0, 0, 0⟩ : ResultRow).send ∧
      (⟨"P1", none, 56, 60, 60, 0, 0, 0, 0, 0⟩ : ResultRow).send
        ≤ (⟨"P1", none, 56, 60, 60, 0, 0, 0, 0, 0⟩ : ResultRow).quantity) := by
  refine ⟨evalD_report, ?_⟩
  exact C4_theorem [⟨"S2", "M1", 56⟩, ⟨"S1", "M2", 10⟩] [⟨"S1", "R1"⟩]
    [⟨"M1", 2⟩, ⟨"M2", 1⟩] [⟨"M1", "P1"⟩, ⟨"M2", "P2"⟩] []
    ([⟨"P1", none, 56, 60, 60, 0, 0, 0, 0, 0⟩,
      ⟨"P2", none, 10, 210, 210, 0, 0, 0, 0, 0⟩],
     [⟨"R1", "P2", none, 10, 100, 210⟩]) evalD_report
    ⟨"P1", none, 56, 60, 60, 0, 0, 0, 0, 0⟩ (List.mem_cons_self _ _)

/-- C5: the POSM-level adjusted demand of every report row is the sum,
over its `(posmType, priority)` groups, of the quantity rule applied to
each group's raw sum (and the raw demand is the plain sum of the same
groups); at `(region, posmType)` granularity the adjusted demand is
likewise the sum over `(region, posmType, priority)` groups of the rule
applied per group. -/
theorem C5_theorem (fact : List FactRow) (sl : List StoreRow)
    (dm : List ModelRow) (dp : List PosmMapRow) (pr : List PriceRow) :
    (∀ row ∈ posm_quantity fact dm dp pr,
      row.original_quantity
          = ((((posm_priority_rows fact dm dp).map Prod.fst).dedup.filter
              (fun k => k.1 = row.posm)).map
              (fun k => sumWhere Prod.fst Prod.snd
                (posm_priority_rows fact dm dp) k)).sum ∧
      row.quantity
          = ((((posm_priority_rows fact dm dp).map Prod.fst).dedup.filter
              (fun k => k.1 = row.posm)).map
              (fun k => apply_quantity_rules
                (sumWhere Prod.fst Prod.snd (posm_priority_rows fact dm dp) k)
                k.2)).sum) ∧
    (∀ prow ∈ province_posm_qty fact sl dm dp,
      prow.adjusted_quantity
          = ((((province_posm_rows fact sl dm dp).map Prod.fst).dedup.filter
              (fun k => (k.1, k.2.1) = (prow.province, prow.posm))).map
              (fun k => apply_quantity_rules
                (sumWhere Prod.fst Prod.snd (province_posm_rows fact sl dm dp) k)
                k.2.2)).sum) := by
  constructor
  · intro row hrow
    unfold posm_quantity at hrow
    simp only [List.mem_map] at hrow
    obtain ⟨t, ht, heq⟩ := hrow
    subst heq
    constructor
    · show (((posm_by_priority fact dm dp).filter (fun g => g.1.1 = t)).map
          (fun g => g.2)).sum = _
      unfold posm_by_priority groupBySum
      rw [List.filter_map, List.map_map]
      rfl
    · show (((posm_by_priority fact dm dp).filter (fun g => g.1.1 = t)).map
          (fun g => apply_quantity_rules g.2 g.1.2)).sum = _
      unfold posm_by_priority groupBySum
      rw [List.filter_map, List.map_map]
      rfl
  · intro prow hprow
    unfold province_posm_qty at hprow
    simp only [List.mem_map] at hprow
    obtain ⟨k, hk, heq⟩ := hprow
    subst heq
    show sumWhere (fun x => (x.province, x.posm)) (fun x => x.adjusted_quantity)
        (province_posm_qty_priority fact sl dm dp) k = _
    unfold sumWhere province_posm_qty_priority groupBySum
    rw [List.map_map, List.filter_map, List.map_map]
    rfl

/-- Evaluation of `posm_quantity` on the two-priority input
`fact = [("S1","M1",100), ("S1","M2",7)]` with `M1` priority 1 and `M2`
priority 2, both requiring POSM type `P1`. -/
lemma evalB_posm_quantity :
    posm_quantity [⟨"S1", "M1", 100⟩, ⟨"S1", "M2", 7⟩]
        [⟨"M1", 1⟩, ⟨"M2", 2⟩] [⟨"M1", "P1"⟩, ⟨"M2", "P1"⟩] []
      = [⟨"P1", none, 107, 220⟩] := by
  unfold posm_quantity
  simp only [apply_quantity_rules_eval]
  decide

/-- C5 witness: with a priority-1 group of 100 and a priority-2 group of
7, the report's adjusted demand is `210 + 10 = 220`, which is the
grouped sum and differs from applying either rule once to the raw total
107. -/
theorem C5_witness :
    (⟨"P1", none, 107, 220⟩ : PosmQuantityRow)
        ∈ posm_quantity [⟨"S1", "M1", 100⟩, ⟨"S1", "M2", 7⟩]
          [⟨"M1", 1⟩, ⟨"M2", 2⟩] [⟨"M1", "P1"⟩, ⟨"M2", "P1"⟩] [] ∧
    (⟨"P1", none, 107, 220⟩ : PosmQuantityRow).quantity
      = ((((posm_priority_rows [⟨"S1", "M1", 100⟩, ⟨"S1", "M2", 7⟩]
            [⟨"M1", 1⟩, ⟨"M2", 2⟩] [⟨"M1", "P1"⟩, ⟨"M2", "P1"⟩]).map
            Prod.fst).dedup.filter (fun k => k.1 = "P1")).map
          (fun k => apply_quantity_rules
            (sumWhere Prod.fst Prod.snd
              (posm_priority_rows [⟨"S1", "M1", 100⟩, ⟨"S1", "M2", 7⟩]
                [⟨"M1", 1⟩, ⟨"M2", 2⟩] [⟨"M1", "P1"⟩, ⟨"M2", "P1"⟩]) k)
            k.2)).sum ∧
    220 ≠ apply_quantity_rules 107 1 ∧
    220 ≠ apply_quantity_rules 107 2 := by
  have hm : (⟨"P1", none, 107, 220⟩ : PosmQuantityRow)
      ∈ posm_quantity [⟨"S1", "M1", 100⟩, ⟨"S1", "M2", 7⟩]
        [⟨"M1", 1⟩, ⟨"M2", 2⟩] [⟨"M1", "P1"⟩, ⟨"M2", "P1"⟩] [] := by
    rw [evalB_posm_quantity]
    exact List.mem_singleton.mpr rfl
  refine ⟨hm, (( C5_theorem [⟨"S1", "M1", 100⟩, ⟨"S1", "M2", 7⟩] []
    [⟨"M1", 1⟩, ⟨"M2", 2⟩] [⟨"M1", "P1"⟩, ⟨"M2", "P1"⟩] []).1 _ hm).2, ?_, ?_⟩
  · simp only [apply_quantity_rules_eval]
    decide
  · simp only [apply_quantity_rules_eval]
    decide

/-- C6: every non-negative integer quantity matches exactly one of the 8
price bands (they are exhaustive and non-overlapping with inclusive
boundaries), `get_price_range` returns the label of the band containing
the quantity, and every quantity ≥ 5001 falls in the open-ended top
band. -/
theorem C6_theorem (q : ℕ) :
    PRICE_RANGES.countP (fun r => inRangeB (q : ℚ) r) = 1 ∧
    (∀ r ∈ PRICE_RANGES, inRangeB (q : ℚ) r = true →
      get_price_range (q : ℚ) = r.name) ∧
    (5001 ≤ q → get_price_range (q : ℚ) = ">5000") := by
  refine ⟨countP_price_ranges q, ?_, ?_⟩
  · intro r hr hq
    exact get_price_range_eq_of_mem q r hr hq
  · intro h5
    have h5q : (5001 : ℚ) ≤ (q : ℚ) := by exact_mod_cast h5
    exact get_price_range_eq_of_mem q _ top_range_mem (inRangeB_top _ h5q)

/-- C6 witness: the partition property at the boundary quantity 6000. -/
theorem C6_witness :
    PRICE_RANGES.countP (fun r => inRangeB ((6000 : ℕ) : ℚ) r) = 1 ∧
    get_price_range ((6000 : ℕ) : ℚ)
      = (⟨5001, none, ">5000"⟩ : PriceRange).name ∧
    (5001 ≤ 6000 → get_price_range ((6000 : ℕ) : ℚ) = ">5000") ∧
    get_price_range ((6000 : ℕ) : ℚ) = ">5000" :=
  ⟨(C6_theorem 6000).1,
   (C6_theorem 6000).2.1 ⟨5001, none, ">5000"⟩ top_range_mem
     (by norm_num [inRangeB]),
   (C6_theorem 6000).2.2,
   (C6_theorem 6000).2.2 (by norm_num)⟩

/-- C8: a missing price entry never aborts the run — whether the report
completes does not depend on the price table at all — and in a completed
report every POSM type of `posm_quantity` still has its result row,
carrying a zero unit price and a zero total cost when the price table
has no entry for the POSM type and the band of its adjusted quantity
(the branch that also logs the warning). -/
theorem C8_theorem (fact : List FactRow) (sl : List StoreRow)
    (dm : List ModelRow) (dp : List PosmMapRow) (pr pr' : List PriceRow) :
    (calculate_posm_report fact sl dm dp pr).isSome
        = (calculate_posm_report fact sl dm dp pr').isSome ∧
    ∀ out, calculate_posm_report fact sl dm dp pr = some out →
      ∀ qrow ∈ posm_quantity fact dm dp pr,
        ∃ r ∈ out.1,
          r.posm = qrow.posm ∧ r.quantity = qrow.quantity ∧
          ((pr.filter (fun p => p.posm = qrow.posm)).find?
              (fun p => p.range = get_price_range (qrow.quantity : ℚ)) = none →
            r.unit_price = 0 ∧ r.total_cost = 0) := by
  constructor
  · unfold calculate_posm_report
    split_ifs <;> rfl
  · intro out hout qrow hq
    rw [calculate_posm_report_some fact sl dm dp pr out hout]
    refine ⟨_, List.mem_map_of_mem _ hq, rfl, rfl, ?_⟩
    intro hnone
    have hzero := calculate_price_none qrow.posm qrow.quantity pr hnone
    constructor
    · show (calculate_price qrow.posm qrow.quantity pr).2 = 0
      rw [hzero]
    · show (calculate_price qrow.posm qrow.quantity pr).1 = 0
      rw [hzero]

/-- C8 witness: on the completing two-POSM input, the report completes
equally with an empty price table and with a one-row price table, and
with the empty table the row for `P1` is present with zero prices. -/
theorem C8_witness :
    ((calculate_posm_report [⟨"S2", "M1", 56⟩, ⟨"S1", "M2", 10⟩]
          [⟨"S1", "R1"⟩] [⟨"M1", 2⟩, ⟨"M2", 1⟩] [⟨"M1", "P1"⟩, ⟨"M2", "P2"⟩]
          []).isSome
        = (calculate_posm_report [⟨"S2", "M1", 56⟩, ⟨"S1", "M2", 10⟩]
          [⟨"S1", "R1"⟩] [⟨"M1", 2⟩, ⟨"M2", 1⟩] [⟨"M1", "P1"⟩, ⟨"M2", "P2"⟩]
          [⟨"P1", "Poster", "<200", 5⟩]).isSome) ∧
    calculate_posm_report [⟨"S2", "M1", 56⟩, ⟨"S1", "M2", 10⟩] [⟨"S1", "R1"⟩]
        [⟨"M1", 2⟩, ⟨"M2", 1⟩] [⟨"M1", "P1"⟩, ⟨"M2", "P2"⟩] []
      = some ([⟨"P1", none, 56, 60, 60, 0, 0, 0, 0, 0⟩,
               ⟨"P2", none, 10, 210, 210, 0, 0, 0, 0, 0⟩],
              [⟨"R1", "P2", none, 10, 100, 210⟩]) ∧
    (⟨"P1", none, 56, 60⟩ : PosmQuantityRow)
        ∈ posm_quantity [⟨"S2", "M1", 56⟩, ⟨"S1", "M2", 10⟩]
          [⟨"M1", 2⟩, ⟨"M2", 1⟩] [⟨"M1", "P1"⟩, ⟨"M2", "P2"⟩] [] ∧
    (∃ r ∈ (([⟨"P1", none, 56, 60, 60, 0, 0, 0, 0, 0⟩,
              ⟨"P2", none, 10, 210, 210, 0, 0, 0, 0, 0⟩],
             [⟨"R1", "P2", none, 10, 100, 210⟩]) :
            List ResultRow × List ProvinceSummaryRow).1,
      r.posm = (⟨"P1", none, 56, 60⟩ : PosmQuantityRow).posm ∧
      r.quantity = (⟨"P1", none, 56, 60⟩ : PosmQuantityRow).quantity ∧
      (((([] : List PriceRow).filter (fun p => p.posm = (⟨"P1", none, 56, 60⟩ :
            PosmQuantityRow).posm)).find?
          (fun p => p.range
            = get_price_range (((⟨"P1", none, 56, 60⟩ :
                PosmQuantityRow).quantity : ℕ) : ℚ)) = none →
        r.unit_price = 0 ∧ r.total_cost = 0))) := by
  have hq : (⟨"P1", none, 56, 60⟩ : PosmQuantityRow)
      ∈ posm_quantity [⟨"S2", "M1", 56⟩, ⟨"S1", "M2", 10⟩]
        [⟨"M1", 2⟩, ⟨"M2", 1⟩] [⟨"M1", "P1"⟩, ⟨"M2", "P2"⟩] [] := by
    rw [evalD_posm_quantity]
    exact List.mem_cons_self _ _
  refine ⟨( C8_theorem [⟨"S2", "M1", 56⟩, ⟨"S1", "M2", 10⟩] [⟨"S1", "R1"⟩]
      [⟨"M1", 2⟩, ⟨"M2", 1⟩] [⟨"M1", "P1"⟩, ⟨"M2", "P2"⟩] []
      [⟨"P1", "Poster", "<200", 5⟩]).1, evalD_report, hq, ?_⟩
  exact ( C8_theorem [⟨"S2", "M1", 56⟩, ⟨"S1", "M2", 10⟩] [⟨"S1", "R1"⟩]
      [⟨"M1", 2⟩, ⟨"M2", 1⟩] [⟨"M1", "P1"⟩, ⟨"M2", "P2"⟩] []
      [⟨"P1", "Poster", "<200", 5⟩]).2
    ([⟨"P1", none, 56, 60, 60, 0, 0, 0, 0, 0⟩,
      ⟨"P2", none, 10, 210, 210, 0, 0, 0, 0, 0⟩],
     [⟨"R1", "P2", none, 10, 100, 210⟩]) evalD_report _ hq

/-- C10: `get_price_range` is total — it always returns one of the eight
band labels — and every quantity matching no band (negative values, or
non-integer values in a gap between bands) is assigned the top band
label. -/
theorem C10_theorem (q : ℚ) :
    get_price_range q ∈ PRICE_RANGES.map (fun r => r.name) ∧
    ((∀ r ∈ PRICE_RANGES, inRangeB q r = false) →
      get_price_range q = ">5000") := by
  refine ⟨get_price_range_mem_names q, ?_⟩
  intro hall
  have hnone : PRICE_RANGES.find? (inRangeB q) = none := by
    rw [List.find?_eq_none]
    intro r hr
    simp [hall r hr]
  unfold get_price_range
  rw [hnone]
  rfl

/-- C10 witness: the non-integer quantity 200.5 lies strictly between
the `<200` and `201-500` bands, matches no band, and is assigned the top
label. -/
theorem C10_witness :
    (∀ r ∈ PRICE_RANGES, inRangeB ((401 : ℚ) / 2) r = false) ∧
    get_price_range ((401 : ℚ) / 2) = ">5000" := by
  have hall : ∀ r ∈ PRICE_RANGES, inRangeB ((401 : ℚ) / 2) r = false := by
    intro r hr
    fin_cases hr <;> norm_num [inRangeB]
  exact ⟨hall, (C10_theorem _).2 hall⟩

/-! ### Lemmas about the allocation blocks (for C7 and C9) -/

lemma summary_rows_for_posm (fact : List FactRow) (sl : List StoreRow)
    (dm : List ModelRow) (dp : List PosmMapRow) (row : PosmQuantityRow) :
    ∀ s ∈ summary_rows_for fact sl dm dp row, s.posm = row.posm := by
  intro s hs
  unfold summary_rows_for at hs
  simp only [List.mem_map] at hs
  obtain ⟨p, hp, heq⟩ := hs
  subst heq
  rfl

/-- Filtering the province summary by one of the report's POSM types
yields exactly that type's block of rows. -/
lemma summary_filter_block (fact : List FactRow) (sl : List StoreRow)
    (dm : List ModelRow) (dp : List PosmMapRow) (pr : List PriceRow)
    (qrow : PosmQuantityRow) (hq : qrow ∈ posm_quantity fact dm dp pr) :
    (province_summary_data fact sl dm dp pr).filter
        (fun s => s.posm = qrow.posm)
      = summary_rows_for fact sl dm dp qrow := by
  rw [province_summary_data_eq]
  exact filter_flatMap_eq_of_nodup (fun r : PosmQuantityRow => r.posm)
    (fun s : ProvinceSummaryRow => s.posm) (summary_rows_for fact sl dm dp)
    (summary_rows_for_posm fact sl dm dp)
    (posm_quantity fact dm dp pr) (posm_quantity_posm_nodup fact dm dp pr)
    qrow hq

lemma block_allocated_sum (fact : List FactRow) (sl : List StoreRow)
    (dm : List ModelRow) (dp : List PosmMapRow) (row : PosmQuantityRow) :
    ((summary_rows_for fact sl dm dp row).map
        (fun s => s.allocated_quantity)).sum
      = (((province_posm_qty fact sl dm dp).filter
          (fun p => p.posm = row.posm)).map
          (fun p => p.adjusted_quantity)).sum := by
  simp only [summary_rows_for]
  rw [List.map_map]
  rfl

/-- Aggregating the per-priority adjusted quantities by
`(province, posm)` conserves their sum over any fixed POSM type. -/
lemma province_adjusted_sum (fact : List FactRow) (sl : List StoreRow)
    (dm : List ModelRow) (dp : List PosmMapRow) (t : String) :
    (((province_posm_qty fact sl dm dp).filter
        (fun p => p.posm = t)).map (fun p => p.adjusted_quantity)).sum
      = (((province_posm_qty_priority fact sl dm dp).filter
          (fun r => r.posm = t)).map (fun r => r.adjusted_quantity)).sum := by
  unfold province_posm_qty
  rw [List.filter_map, List.map_map]
  have h := sum_sumWhere_filter
    (fun r : ProvincePosmPriorityRow => (r.province, r.posm))
    (fun r => r.adjusted_quantity) (fun k => k.2 = t)
    (province_posm_qty_priority fact sl dm dp)
    (((province_posm_qty_priority fact sl dm dp).map
      (fun r => (r.province, r.posm))).dedup)
    (List.nodup_dedup _)
    (fun r hr => List.mem_dedup.mpr (List.mem_map_of_mem _ hr))
  dsimp only [Function.comp] at h ⊢
  exact h

/-- C7: every allocation row allocates the region's own rule-adjusted
demand (with its raw need in `needed_quantity`), and for each POSM type
of the report the allocated quantities over regions sum to the total of
the per-`(region, priority)`-group adjusted demands. -/
theorem C7_theorem (fact : List FactRow) (sl : List StoreRow)
    (dm : List ModelRow) (dp : List PosmMapRow) (pr : List PriceRow) :
    (∀ srow ∈ province_summary_data fact sl dm dp pr,
      ∃ prow ∈ province_posm_qty fact sl dm dp,
        prow.province = srow.province ∧ prow.posm = srow.posm ∧
        srow.needed_quantity = prow.original_quantity ∧
        srow.allocated_quantity = prow.adjusted_quantity) ∧
    (∀ t ∈ (posm_quantity fact dm dp pr).map (fun r => r.posm),
      (((province_summary_data fact sl dm dp pr).filter
          (fun s => s.posm = t)).map (fun s => s.allocated_quantity)).sum
        = (((province_posm_qty_priority fact sl dm dp).filter
            (fun r => r.posm = t)).map (fun r => r.adjusted_quantity)).sum) := by
  constructor
  · intro srow hsrow
    rw [province_summary_data_eq] at hsrow
    rcases List.mem_flatMap.mp hsrow with ⟨row, hrow, hs⟩
    unfold summary_rows_for at hs
    simp only [List.mem_map] at hs
    obtain ⟨p, hp, heq⟩ := hs
    subst heq
    refine ⟨p, List.mem_of_mem_filter hp, rfl, ?_, rfl, rfl⟩
    have hpfilter := List.of_mem_filter hp
    simpa using hpfilter
  · intro t ht
    simp only [List.mem_map] at ht
    obtain ⟨qrow, hq, heqt⟩ := ht
    subst heqt
    rw [summary_filter_block fact sl dm dp pr qrow hq, block_allocated_sum,
      province_adjusted_sum]

/-! Evaluation of the pipeline on the concrete input
`fact = [("S1","M1",56)]`, store list `[("S1","R1")]`,
`dim_model = [("M1",2)]`, `dim_posm = [("M1","P1")]`, empty price
table. -/

lemma evalC_province_posm_qty :
    province_posm_qty [⟨"S1", "M1", 56⟩] [⟨"S1", "R1"⟩] [⟨"M1", 2⟩]
        [⟨"M1", "P1"⟩]
      = [⟨"R1", "P1", 56, 60⟩] := by
  unfold province_posm_qty province_posm_qty_priority
  simp only [apply_quantity_rules_eval]
  decide

lemma evalC_summary :
    province_summary_data [⟨"S1", "M1", 56⟩] [⟨"S1", "R1"⟩] [⟨"M1", 2⟩]
        [⟨"M1", "P1"⟩] []
      = [⟨"R1", "P1", none, 56, 100, 60⟩] := by
  rw [province_summary_data_eq, evalA_posm_quantity]
  simp only [List.flatMap_cons, List.flatMap_nil, summary_rows_for,
    evalC_province_posm_qty]
  norm_num [List.filter_cons]

/-- C7 witness: the allocation row for region `R1` carries the region's
own adjusted demand 60, and the per-POSM sums agree. -/
theorem C7_witness :
    (⟨"R1", "P1", none, 56, 100, 60⟩ : ProvinceSummaryRow)
        ∈ province_summary_data [⟨"S1", "M1", 56⟩] [⟨"S1", "R1"⟩]
          [⟨"M1", 2⟩] [⟨"M1", "P1"⟩] [] ∧
    (∃ prow ∈ province_posm_qty [⟨"S1", "M1", 56⟩] [⟨"S1", "R1"⟩]
        [⟨"M1", 2⟩] [⟨"M1", "P1"⟩],
      prow.province = "R1" ∧ prow.posm = "P1" ∧
      (56 : ℕ) = prow.original_quantity ∧
      (60 : ℕ) = prow.adjusted_quantity) ∧
    "P1" ∈ (posm_quantity [⟨"S1", "M1", 56⟩] [⟨"M1", 2⟩] [⟨"M1", "P1"⟩]
        []).map (fun r => r.posm) ∧
    (((province_summary_data [⟨"S1", "M1", 56⟩] [⟨"S1", "R1"⟩] [⟨"M1", 2⟩]
        [⟨"M1", "P1"⟩] []).filter (fun s => s.posm = "P1")).map
        (fun s => s.allocated_quantity)).sum
      = (((province_posm_qty_priority [⟨"S1", "M1", 56⟩] [⟨"S1", "R1"⟩]
          [⟨"M1", 2⟩] [⟨"M1", "P1"⟩]).filter (fun r => r.posm = "P1")).map
          (fun r => r.adjusted_quantity)).sum := by
  have hm : (⟨"R1", "P1", none, 56, 100, 60⟩ : ProvinceSummaryRow)
      ∈ province_summary_data [⟨"S1", "M1", 56⟩] [⟨"S1", "R1"⟩]
        [⟨"M1", 2⟩] [⟨"M1", "P1"⟩] [] := by
    rw [evalC_summary]
    exact List.mem_singleton.mpr rfl
  have ht : "P1" ∈ (posm_quantity [⟨"S1", "M1", 56⟩] [⟨"M1", 2⟩]
      [⟨"M1", "P1"⟩] []).map (fun r => r.posm) := by
    rw [evalA_posm_quantity]
    exact List.mem_singleton.mpr rfl
  exact ⟨hm,
    ( C7_theorem [⟨"S1", "M1", 56⟩] [⟨"S1", "R1"⟩] [⟨"M1", 2⟩]
      [⟨"M1", "P1"⟩] []).1 _ hm,
    ht,
    ( C7_theorem [⟨"S1", "M1", 56⟩] [⟨"S1", "R1"⟩] [⟨"M1", 2⟩]
      [⟨"M1", "P1"⟩] []).2 "P1" ht⟩

/-- Exact rational percentage sum over an arbitrary province block. -/
lemma pct_sum_general (l : List ProvincePosmRow)
    (hpos : 0 < (l.map (fun x => x.original_quantity)).sum) :
    (l.map (fun p =>
        (if 0 < (l.map (fun x => x.original_quantity)).sum
          then (p.original_quantity : ℚ)
              / (((l.map (fun x => x.original_quantity)).sum : ℕ) : ℚ)
          else 0) * 100)).sum = 100 := by
  have hT : (((l.map (fun x => x.original_quantity)).sum : ℕ) : ℚ) ≠ 0 :=
    Nat.cast_ne_zero.mpr (by omega)
  have hstep : l.map (fun p =>
        (if 0 < (l.map (fun x => x.original_quantity)).sum
          then (p.original_quantity : ℚ)
              / (((l.map (fun x => x.original_quantity)).sum : ℕ) : ℚ)
          else 0) * 100)
      = l.map (fun p => ((p.original_quantity : ℚ)
          / (((l.map (fun x => x.original_quantity)).sum : ℕ) : ℚ)) * 100) := by
    apply List.map_congr_left
    intro p _
    rw [if_pos hpos]
  calc (l.map (fun p =>
        (if 0 < (l.map (fun x => x.original_quantity)).sum
          then (p.original_quantity : ℚ)
              / (((l.map (fun x => x.original_quantity)).sum : ℕ) : ℚ)
          else 0) * 100)).sum
      = (l.map (fun p => ((p.original_quantity : ℚ)
          / (((l.map (fun x => x.original_quantity)).sum : ℕ) : ℚ)) * 100)).sum := by
        rw [hstep]
    _ = ((((l.map (fun x => x.original_quantity)).sum : ℕ) : ℚ)
          / (((l.map (fun x => x.original_quantity)).sum : ℕ) : ℚ)) * 100 :=
        sum_map_div_mul l (fun x => x.original_quantity)
          ((((l.map (fun x => x.original_quantity)).sum : ℕ) : ℚ)) 100
    _ = 100 := by
        rw [div_self hT, one_mul]

/-- The percentage column of one POSM type's block sums to exactly 100
when the block's total raw need is positive. -/
lemma block_percentage_sum (fact : List FactRow) (sl : List StoreRow)
    (dm : List ModelRow) (dp : List PosmMapRow) (row : PosmQuantityRow)
    (hpos : 0 < (((province_posm_qty fact sl dm dp).filter
        (fun p => p.posm = row.posm)).map
        (fun p => p.original_quantity)).sum) :
    ((summary_rows_for fact sl dm dp row).map
        (fun s => s.percentage_of_total)).sum = 100 := by
  simp only [summary_rows_for]
  rw [List.map_map]
  have h := pct_sum_general
    ((province_posm_qty fact sl dm dp).filter (fun p => p.posm = row.posm))
    hpos
  dsimp only [Function.comp_def]
  exact h

/-- C9: every allocation row's percentage is its region's raw demand
over the block's total raw demand times 100 (0 when the total is 0), and
for a POSM type with positive total raw region demand the percentages sum
to exactly 100 in rational arithmetic. -/
theorem C9_theorem (fact : List FactRow) (sl : List StoreRow)
    (dm : List ModelRow) (dp : List PosmMapRow) (pr : List PriceRow)
    (qrow : PosmQuantityRow) (hq : qrow ∈ posm_quantity fact dm dp pr) :
    (∀ srow ∈ (province_summary_data fact sl dm dp pr).filter
        (fun s => s.posm = qrow.posm),
      srow.percentage_of_total
        = (if 0 < (((province_posm_qty fact sl dm dp).filter
              (fun p => p.posm = qrow.posm)).map
              (fun p => p.original_quantity)).sum
          then (srow.needed_quantity : ℚ)
              / ((((((province_posm_qty fact sl dm dp).filter
                  (fun p => p.posm = qrow.posm)).map
                  (fun p => p.original_quantity)).sum : ℕ)) : ℚ)
          else 0) * 100) ∧
    (0 < (((province_posm_qty fact sl dm dp).filter
          (fun p => p.posm = qrow.posm)).map
          (fun p => p.original_quantity)).sum →
      ((((province_summary_data fact sl dm dp pr).filter
          (fun s => s.posm = qrow.posm)).map
          (fun s => s.percentage_of_total)).sum = 100)) := by
  rw [summary_filter_block fact sl dm dp pr qrow hq]
  constructor
  · intro srow hsrow
    unfold summary_rows_for at hsrow
    simp only [List.mem_map] at hsrow
    obtain ⟨p, hp, heq⟩ := hsrow
    subst heq
    dsimp only
  · intro hpos
    exact block_percentage_sum fact sl dm dp qrow hpos

/-- C9 witness: with one region holding all 56 units of raw demand, its
percentage is 100 and the block sums to 100. -/
theorem C9_witness :
    (⟨"P1", none, 56, 60⟩ : PosmQuantityRow)
        ∈ posm_quantity [⟨"S1", "M1", 56⟩] [⟨"M1", 2⟩] [⟨"M1", "P1"⟩] [] ∧
    0 < (((province_posm_qty [⟨"S1", "M1", 56⟩] [⟨"S1", "R1"⟩] [⟨"M1", 2⟩]
          [⟨"M1", "P1"⟩]).filter
          (fun p => p.posm = (⟨"P1", none, 56, 60⟩ : PosmQuantityRow).posm)).map
          (fun p => p.original_quantity)).sum ∧
    ((((province_summary_data [⟨"S1", "M1", 56⟩] [⟨"S1", "R1"⟩] [⟨"M1", 2⟩]
        [⟨"M1", "P1"⟩] []).filter
        (fun s => s.posm = (⟨"P1", none, 56, 60⟩ : PosmQuantityRow).posm)).map
        (fun s => s.percentage_of_total)).sum = 100) := by
  have hm : (⟨"P1", none, 56, 60⟩ : PosmQuantityRow)
      ∈ posm_quantity [⟨"S1", "M1", 56⟩] [⟨"M1", 2⟩] [⟨"M1", "P1"⟩] [] := by
    rw [evalA_posm_quantity]
    exact List.mem_singleton.mpr rfl
  have hpos : 0 < (((province_posm_qty [⟨"S1", "M1", 56⟩] [⟨"S1", "R1"⟩]
      [⟨"M1", 2⟩] [⟨"M1", "P1"⟩]).filter
      (fun p => p.posm = (⟨"P1", none, 56, 60⟩ : PosmQuantityRow).posm)).map
      (fun p => p.original_quantity)).sum := by
    rw [evalC_province_posm_qty]
    decide
  exact ⟨hm, hpos,
    ( C9_theorem [⟨"S1", "M1", 56⟩] [⟨"S1", "R1"⟩] [⟨"M1", 2⟩]
      [⟨"M1", "P1"⟩] [] _ hm).2 hpos⟩

end PosmCalc
